import Mathlib

/-!
Verification development for the Dallinger/Wallace simulation core.

The Python sources embedded here are `wallace/sources.py`,
`dallinger/recruiters.py` and the trace of `tests/test_processes.py`.
The modules `wallace/models.py`, `wallace/networks.py`, `wallace/agents.py`
and `wallace/processes.py` are not part of the shown sources; the definitions
that stand in for them are modelled from the specification and say so in
their doc comments.
-/

namespace Wallace

/-! ## A small model of Python call-time semantics

Several claims are about Python's argument binding and name resolution at
call/definition time, so we embed the relevant fragment: plain
positional-or-keyword parameters (no starred parameters occur in the
embedded signatures), bound as CPython does — positionals fill slots left
to right, keywords fill named slots, a keyword naming a slot already filled
positionally or naming no slot is a `TypeError`, an unfilled slot with no
default is a `TypeError`. -/

inductive PyErr where
  | typeError
  | nameError
  | notImplementedError
  | deadEndError
  | uninitializedCarrierError
deriving DecidableEq, Repr

inductive PyVal where
  | none
  | int (n : Int)
  | obj (tag : String)
deriving DecidableEq, Repr

/-- CPython argument binding for a signature of plain positional-or-keyword
parameters: `params` in declaration order, the last `numDefaults` of which
carry defaults; `pos` the positional arguments, `kw` the keyword arguments
of the call. Returns `()` when the call binds, `TypeError` otherwise. -/
def bindCall (params : List String) (numDefaults : Nat)
    (pos : List PyVal) (kw : List (String × PyVal)) : Except PyErr Unit :=
  if params.length < pos.length then
    .error .typeError
  else if kw.any (fun p => !(params.contains p.1)) then
    .error .typeError
  else if kw.any (fun p => (params.take pos.length).contains p.1) then
    .error .typeError
  else if ((params.take (params.length - numDefaults)).drop pos.length).any
      (fun q => !(kw.any (fun p => p.1 == q))) then
    .error .typeError
  else
    .ok ()

/-- Python name resolution against a list of names bound in the enclosing
scopes: `NameError` when the name is bound nowhere. -/
def resolveName (scope : List String) (n : String) : Except PyErr Unit :=
  if scope.contains n then .ok () else .error .nameError

/-- Evaluate a list of names (e.g. the default-value expressions of a `def`
statement, each of which is a bare name) left to right, stopping at the
first failure. -/
def evalNames (scope : List String) (ns : List String) : Except PyErr Unit :=
  ns.foldl (fun acc n => acc >>= fun _ => resolveName scope n) (.ok ())

/-! ## `wallace/sources.py` -/

/-- Names bound in the module scope of `wallace/sources.py` when the body of
`class Source` starts executing: the two `import` statements bind
`Node, Info, ForeignKey, Column, String, random`. -/
def sourcesModuleScope : List String :=
  ["Node", "Info", "ForeignKey", "Column", "String", "random"]

/-- Names bound in the class body of `Source` before the
`def create_information` statement executes:
`__tablename__`, `__mapper_args__`, `uuid`. -/
def sourceClassScope : List String :=
  ["__tablename__", "__mapper_args__", "uuid"]

/-- Builtins referenced anywhere in `wallace/sources.py`. -/
def sourcesBuiltins : List String :=
  ["str", "range", "super", "NotImplementedError"]

/-- The scope in which the default-value expressions of
`Source.create_information` are evaluated when the `def` statement runs:
class-body locals, then module globals, then builtins. -/
def createInformationDefScope : List String :=
  sourceClassScope ++ sourcesModuleScope ++ sourcesBuiltins

/-- The default-value expressions of
`def create_information(self, what=what, who=who)` are the bare names
`what` and `who`, evaluated at `def` execution time. -/
def createInformationDefaultExprs : List String := ["what", "who"]

/-- Executing the body of `class Source` reaches the
`def create_information(self, what=what, who=who)` statement, whose
default-value expressions are evaluated immediately; importing
`wallace.sources` executes the class body, so the import fails as soon as
one of those expressions fails. (The statements before it — the two
imports and three class-body assignments — bind names and cannot raise
`NameError`.) -/
def importWallaceSources : Except PyErr Unit :=
  evalNames createInformationDefScope createInformationDefaultExprs

/-- Parameter list of `Source.create_information(self, what=what, who=who)`. -/
def sourceCreateInformationParams : List String := ["self", "what", "who"]

/-- Parameter list of `RandomBinaryStringSource.create_information(self, selector)`. -/
def rbssCreateInformationParams : List String := ["self", "selector"]

/-- Parameter list of `Source.transmit(self, who=None, what=None)`. -/
def sourceTransmitParams : List String := ["self", "who", "what"]

/-- Body of the generic `Source.create_information`:
`raise NotImplementedError("You need to overwrite the default create_information.")`. -/
def sourceCreateInformationBody : Except PyErr Unit :=
  .error .notImplementedError

/-- Python `random.randint(0, 1)`: a uniform draw from `{0, 1}`. The global
generator's successive raw draws are modelled as an explicit stream of
naturals, one consumed per `randint` call, reduced mod 2. -/
def randint01 (draw : Nat) : Nat := draw % 2

/-- Python `str` applied to the result of `randint(0, 1)`. -/
def bitChar (draw : Nat) : Char := if randint01 draw = 0 then '0' else '1'

/-- Method `RandomBinaryStringSource._binary_string`:
`"".join([str(random.randint(0, 1)) for i in range(2)])` — two draws from
the global generator, joined. -/
def binaryString (d1 d2 : Nat) : String := String.mk [bitChar d1, bitChar d2]

/-- Python parameter list of `RandomBinaryStringSource._binary_string`. -/
def binaryStringParams : List String := ["self"]

/-- Names the body of `_binary_string` resolves outside its local scope:
the builtins `str` and `range`, and the module-global `random` (the shared
default generator of the `random` module). -/
def binaryStringGlobalRefs : List String := ["str", "random", "range"]

/-- The claim's notion of an injectable randomness source: the sampling
function declares some parameter, besides `self`, through which a caller
passes the source of randomness. -/
def hasInjectableRandomnessParam (params : List String) : Prop :=
  ∃ p ∈ params, p ≠ "self"

instance : DecidablePred hasInjectableRandomnessParam := fun params =>
  List.decidableBEx _ params

/-- An `Info` row as built by `RandomBinaryStringSource.create_information`:
`Info(origin=self, origin_uuid=self.uuid, contents=self._binary_string())`.
The `origin` relationship is represented by the originating node's uuid. -/
structure Info where
  origin_uuid : Nat
  contents : String
deriving DecidableEq, Repr

/-- Body of `RandomBinaryStringSource.create_information` (run on a source
whose uuid is `selfUuid`, with `d1, d2` the next two raw draws of the
global generator). -/
def rbssCreateInformationBody (selfUuid : Nat) (d1 d2 : Nat) : Info :=
  { origin_uuid := selfUuid, contents := binaryString d1 d2 }

/-- The state a `RandomBinaryStringSource` acts on: its uuid, the
destination uuids of its outgoing vectors, the transmissions recorded so
far (destination uuid paired with the transmitted contents), and the next
two raw draws of the global random generator. -/
structure SrcState where
  uuid : Nat
  outTargets : List Nat
  transmissions : List (Nat × String)
  d1 : Nat
  d2 : Nat
deriving DecidableEq, Repr

/-- Modelled from the spec: `Node.transmit` on a source state (the class
`Node` lives in the absent `wallace/models.py`): with `who=None`, one
Transmission of the node's latest Info is created per outgoing Vector. -/
def nodeTransmitAll (info : Info) (st : SrcState) : SrcState :=
  { st with transmissions :=
      st.transmissions ++ st.outTargets.map (fun t => (t, info.contents)) }

/-- Method `Source.transmit(self, who=None, what=None)` executed on a
`RandomBinaryStringSource`: the body first evaluates
`self.create_information(what=what, who=who)` — a call that must bind
against `RandomBinaryStringSource.create_information(self, selector)` —
and only if that call binds does it run the `create_information` body and
then `super(Source, self).transmit(who=who, what=what)`. -/
def rbssTransmit (st : SrcState) : Except PyErr SrcState :=
  match bindCall rbssCreateInformationParams 0 [.obj ("self")]
      [("what", .none), ("who", .none)] with
  | .error e => .error e
  | .ok _ =>
      let info := rbssCreateInformationBody st.uuid st.d1 st.d2
      .ok (nodeTransmitAll info st)

/-- Modelled from the spec: `broadcast()` on a Source (it lives in the
absent `wallace/models.py`): sugar for `transmit` with `who=None`. -/
def rbssBroadcast (st : SrcState) : Except PyErr SrcState := rbssTransmit st

/-! ## `dallinger/recruiters.py` -/

/-- Method `Recruiter.open_recruitment`: `raise NotImplementedError`. -/
def recruiterOpenRecruitment : Except PyErr Unit :=
  .error .notImplementedError

/-- Method `Recruiter.recruit_participants(self, n=1)`: `raise NotImplementedError`. -/
def recruiterRecruitParticipants (n : Nat) : Except PyErr Unit :=
  .error .notImplementedError

/-- Method `Recruiter.close_recruitment`: `raise NotImplementedError`. -/
def recruiterCloseRecruitment : Except PyErr Unit :=
  .error .notImplementedError

/-- Parameter list of `SimulatedRecruiter.recruit_participants(self, n=1, exp=None)`. -/
def simulatedRecruitParticipantsParams : List String := ["self", "n", "exp"]

/-- Body of `SimulatedRecruiter.recruit_participants` once bound: the loop
`for i in xrange(n): newcomer = exp.agent_type(); exp.newcomer_arrival_trigger(newcomer)`
recruits `n` newcomers into the experiment; we record the arrival events. -/
def simulatedRecruitBody (n : Nat) (expTag : String) : List String :=
  (List.range n).map (fun i => expTag ++ ".arrival." ++ toString i)

/-- Method `SimulatedRecruiter.open_recruitment(self, exp=None)`: the body is
`self.recruit_participants(exp, n=1)` — `exp` passed positionally, `n=1`
by keyword — which must bind against
`recruit_participants(self, n=1, exp=None)`. The result is the list of
arrival events triggered, when the call binds. -/
def simulatedOpenRecruitment (expTag : String) : Except PyErr (List String) :=
  match bindCall simulatedRecruitParticipantsParams 2
      [.obj ("self"), .obj expTag] [("n", .int 1)] with
  | .error e => .error e
  | .ok _ => .ok (simulatedRecruitBody 1 expTag)

/-- Uniform selection from a pool: the element at the sampled index, with
the fallback element returned when the index runs past the end (the
sampled index is always reduced mod the pool length at call sites, so the
fallback is the head in practice). -/
def pickD {α : Type} : List α → Nat → α → α
  | [], _, d => d
  | x :: _, 0, _ => x
  | _ :: xs, n + 1, d => pickD xs n d

/-! ## The simulation core

`wallace/models.py`, `wallace/networks.py`, `wallace/agents.py` and
`wallace/processes.py` are not among the shown sources; everything in this
section is modelled from the specification (its §3 data model, §4.1–§4.3
operations), with the doc comments saying which operation each definition
stands in for. The trace they are used on is the one written out in
`tests/test_processes.py`. -/

/-- Modelled from the spec: a Node of `wallace/models.py` as the processes
see it — identity, `status ∈ {"alive", "dead"}`, and the contents of its
most recently adopted Info (`None` until first receipt). -/
structure Agent where
  uuid : Nat
  status : String
  contents : Option String
deriving DecidableEq, Repr

/-- Modelled from the spec: the Network of `wallace/networks.py` — its
Agents, its Vectors as ordered uuid pairs, and the pending Transmissions
(destination uuid paired with the transmitted Info contents, kept in
creation order). -/
structure Net where
  agents : List Agent
  vectors : List (Nat × Nat)
  pending : List (Nat × String)
deriving DecidableEq, Repr

/-- Modelled from the spec: `Network.agents()` returns the alive Agents
only. -/
def aliveAgents (net : Net) : List Agent :=
  net.agents.filter (fun a => a.status == "alive")

/-- Contents of the Agent with uuid `u` (`none` when absent or never
seeded). -/
def agentContents (net : Net) (u : Nat) : Option String :=
  match net.agents.find? (fun a => a.uuid == u) with
  | some a => a.contents
  | none => none

/-- Status of the Agent with uuid `u` (`""` when absent). -/
def agentStatus (net : Net) (u : Nat) : String :=
  match net.agents.find? (fun a => a.uuid == u) with
  | some a => a.status
  | none => ""

/-- Modelled from the spec: `Agent.receive_all()` — collect the pending
Transmissions addressed to `u`, adopt the most recent by creation order as
the new contents (default replication rule: overwrite), and mark every
collected Transmission received (here: drop it from the pending list). -/
def receiveAll (u : Nat) (net : Net) : Net :=
  match (net.pending.filter (fun p => p.1 == u)).getLast? with
  | some q =>
      { net with
        agents := net.agents.map (fun a =>
          if a.uuid == u then { a with contents := some q.2 } else a),
        pending := net.pending.filter (fun p => !(p.1 == u)) }
  | none => net

/-- The test-suite idiom `for agent in net.agents: agent.receive_all()`:
every alive Agent consumes its pending Transmissions, in network order. -/
def receiveAllAgents (net : Net) : Net :=
  (aliveAgents net).foldl (fun n a => receiveAll a.uuid n) net

/-- Modelled from the spec: `add_source_global` followed by
`source.broadcast()` and a `receive_all()` sweep — the source's single
generated Info (contents `s`) travels along one Vector per Agent present
at call time, and every Agent adopts it. The source node itself originates
Transmissions but is not an Agent, so it does not join `agents`. -/
def seedGlobal (s : String) (net : Net) : Net :=
  receiveAllAgents
    { net with pending := net.pending ++ net.agents.map (fun a => (a.uuid, s)) }

/-- The fully-connected three-Agent Network built by the Moran tests:
Agents 1, 2, 3 all alive and unseeded, with all six directed Vectors. -/
def fcNet : Net :=
  { agents := [⟨1, "alive", none⟩, ⟨2, "alive", none⟩, ⟨3, "alive", none⟩],
    vectors := [(1, 2), (1, 3), (2, 1), (2, 3), (3, 1), (3, 2)],
    pending := [] }

/-- The chain Network of the random-walk test: Agents 1 → 2 → 3, a local
source attached to Agent 1 (the source is not an Agent; its sole outgoing
Vector is recorded by the walk state below). -/
def chainNet : Net :=
  { agents := [⟨1, "alive", none⟩, ⟨2, "alive", none⟩, ⟨3, "alive", none⟩],
    vectors := [(1, 2), (2, 3)],
    pending := [] }

/-- Modelled from the spec: the state of `RandomWalkFromSource` — the
Network, the sole local target of the seeding source, the current carrier
(`none` before the seeding first step), and the position reached in the
stream of raw draws of the global random generator. -/
structure Walk where
  net : Net
  srcTarget : Nat
  carrier : Option Nat
  k : Nat
deriving Repr

/-- Modelled from the spec: `RandomWalkFromSource.step()` (absent
`wallace/processes.py`). On the first step the local Source transmits — it
generates fresh content (per `RandomBinaryStringSource._binary_string`,
two draws) and creates one Transmission along its sole outgoing Vector —
and the carrier becomes the source's target. On a later step, one outgoing
Vector of the carrier is sampled uniformly (`DeadEndError` when it has
none), the carrier's current contents travel along it
(`UninitializedCarrierError` when the carrier never adopted any), and the
carrier advances to the Vector's destination. Uniform sampling from a pool
of size `m` is realized as the next raw draw reduced mod `m`. -/
def walkStep (r : Nat → Nat) (w : Walk) : Except PyErr Walk :=
  match w.carrier with
  | none =>
      let s := binaryString (r w.k) (r (w.k + 1))
      .ok { w with
              net := { w.net with pending := w.net.pending ++ [(w.srcTarget, s)] },
              carrier := some w.srcTarget,
              k := w.k + 2 }
  | some c =>
      match w.net.vectors.filter (fun v => v.1 == c) with
      | [] => .error .deadEndError
      | v :: vs =>
          let tgt := (pickD (v :: vs) (r w.k % (v :: vs).length) v).2
          match agentContents w.net c with
          | Option.none => .error .uninitializedCarrierError
          | some info =>
              .ok { w with
                      net := { w.net with pending := w.net.pending ++ [(tgt, info)] },
                      carrier := some tgt,
                      k := w.k + 1 }

/-- One `step()` / `receive_all()` cycle of the random-walk test: step the
walk, then let the Agent named by the test consume its Transmissions. -/
def walkCycle (r : Nat → Nat) (u : Nat) (w : Walk) : Except PyErr Walk :=
  (walkStep r w).map (fun w2 => { w2 with net := receiveAll u w2.net })

/-- The walk state at the start of `test_random_walk_from_source`: the
chain Network, the source locally attached to Agent 1, nothing seeded. -/
def walk0 : Walk := { net := chainNet, srcTarget := 1, carrier := none, k := 0 }

/-- Modelled from the spec: `MoranProcessCultural.step()` (absent
`wallace/processes.py`). Uniformly sample a focal alive Agent `d` (draw
`r1`), uniformly sample a Vector incoming to `d` whose tail is an alive
Agent (draw `r2`; the seeding source is a pure emitter, not an Agent, so
it is not in the drift pool), and let the tail transmit its current Info
to `d`. The spec's resample-on-no-incoming is modelled as leaving the
Network unchanged; in the fully-connected topology verified below every
Agent has incoming Vectors, so that branch is never taken. No status ever
changes. -/
def moranCulturalStep (r1 r2 : Nat) (net : Net) : Net :=
  match aliveAgents net with
  | [] => net
  | a :: rest =>
      let d := pickD (a :: rest) (r1 % (a :: rest).length) a
      match net.vectors.filter (fun v =>
          v.2 == d.uuid && (aliveAgents net).any (fun b => b.uuid == v.1)) with
      | [] => net
      | v :: vs =>
          let w := pickD (v :: vs) (r2 % (v :: vs).length) v
          match agentContents net w.1 with
          | some c => { net with pending := net.pending ++ [(d.uuid, c)] }
          | Option.none => net

/-- The loop of `test_moran_process_cultural`: `k` iterations of
`process.step()` followed by `receive_all()` on every alive Agent, fed by
the raw-draw stream `r` (two draws per step). -/
def moranCulturalRun (r : Nat → Nat) (net : Net) : Nat → Net
  | 0 => net
  | k + 1 =>
      receiveAllAgents
        (moranCulturalStep (r (2 * k)) (r (2 * k + 1)) (moranCulturalRun r net k))

/-- Modelled from the spec: `MoranProcessSexual.step()` (absent
`wallace/processes.py`), acting on the Network paired with the next fresh
uuid. Sample a focal alive Agent `d` (draw `r1`) and set its status to
`"dead"`; sample two parents among the alive Agents with a Vector into `d`
(draws `r2`, `r3`; distinct when at least two exist, otherwise with
replacement); produce a new alive Agent whose contents copy the first
sampled parent's contents (the default inheritance rule: uniformly choose
one parent's content — realized by the uniform draw of the first parent);
re-attach the newcomer at the dead Agent's former Vector positions by
substituting its uuid for `d`'s in every Vector. The spec's
`InsufficientNeighborsError` (empty parent pool) is modelled as leaving
the state unchanged; it is never reached in the topology verified below. -/
def moranSexualStep (r1 r2 r3 : Nat) (st : Net × Nat) : Net × Nat :=
  match aliveAgents st.1 with
  | [] => st
  | a :: rest =>
      let net := st.1
      let d := pickD (a :: rest) (r1 % (a :: rest).length) a
      match (aliveAgents net).filter (fun b =>
          !(b.uuid == d.uuid) && net.vectors.any (fun v =>
            v.1 == b.uuid && v.2 == d.uuid)) with
      | [] => st
      | p :: ps =>
          let pool := p :: ps
          let parent1 := pickD pool (r2 % pool.length) p
          let rest2 := pool.filter (fun b => !(b.uuid == parent1.uuid))
          let _parent2 :=
            match rest2 with
            | [] => pickD pool (r3 % pool.length) p
            | q :: qs => pickD (q :: qs) (r3 % (q :: qs).length) q
          let child : Agent := { uuid := st.2, status := "alive", contents := parent1.contents }
          ({ agents :=
               (net.agents.map (fun b =>
                 if b.uuid == d.uuid then { b with status := "dead" } else b)) ++ [child],
             vectors := net.vectors.map (fun v =>
               (if v.1 == d.uuid then st.2 else v.1,
                if v.2 == d.uuid then st.2 else v.2)),
             pending := net.pending },
           st.2 + 1)

/-- The loop of `test_moran_process_sexual`: `k` iterations of
`process.step()` followed by `receive_all()` on every alive Agent, fed by
the raw-draw stream `r` (three draws per step). -/
def moranSexualRun (r : Nat → Nat) (st : Net × Nat) : Nat → Net × Nat
  | 0 => st
  | k + 1 =>
      let st2 := moranSexualStep (r (3 * k)) (r (3 * k + 1)) (r (3 * k + 2))
        (moranSexualRun r st k)
      (receiveAllAgents st2.1, st2.2)

/-- Invariant of the globally-seeded Moran runs: every Agent's current
contents and every pending Transmission's contents equal the one seeded
string `s`. -/
def ContentsLocked (s : String) (net : Net) : Prop :=
  (∀ a ∈ net.agents, a.contents = some s) ∧ ∀ p ∈ net.pending, p.2 = s

/-- Shape invariant of the cultural run on the fully-connected test
Network: exactly the three Agents of `fcNet`, in order, by uuid. -/
def FcShape (l : List Agent) : Prop :=
  ∃ a b c : Agent, l = [a, b, c] ∧ a.uuid = 1 ∧ b.uuid = 2 ∧ c.uuid = 3

/-! ## Theorems -/

theorem bitChar_cases (d : Nat) : bitChar d = '0' ∨ bitChar d = '1' := by
  unfold bitChar
  split <;> simp

/-- C1: evaluation at the failing input. On a `RandomBinaryStringSource`
with two outgoing Vectors, `transmit` raises `TypeError` out of its
`create_information(what=..., who=...)` call, so no Info is produced and
no Transmission is created — against the claimed (and spec-intended,
test-expected) generate-then-transmit behavior. -/
theorem transmit_fails_before_transmission :
    rbssTransmit { uuid := 1, outTargets := [2, 3], transmissions := [], d1 := 0, d2 := 1 }
      = Except.error PyErr.typeError := rfl

/-- C2: on every `RandomBinaryStringSource` state, `transmit` (and hence
`broadcast`) fails with a `TypeError`: the keyword call
`create_information(what=..., who=...)` made by `Source.transmit` does not
bind against `RandomBinaryStringSource.create_information(self, selector)`,
and the failure precedes the `super().transmit` call, so the result is an
error and no Transmission is created. -/
theorem transmit_typeError (st : SrcState) :
    bindCall rbssCreateInformationParams 0 [.obj ("self")] [("what", .none), ("who", .none)]
        = Except.error PyErr.typeError ∧
    rbssTransmit st = Except.error PyErr.typeError ∧
    rbssBroadcast st = Except.error PyErr.typeError :=
  ⟨rfl, rfl, rfl⟩

/-- Witness for C2 at a concrete source state. -/
theorem transmit_typeError_witness :
    bindCall rbssCreateInformationParams 0 [.obj ("self")] [("what", .none), ("who", .none)]
        = Except.error PyErr.typeError ∧
    rbssTransmit ⟨7, [8, 9], [], 0, 1⟩ = Except.error PyErr.typeError ∧
    rbssBroadcast ⟨7, [8, 9], [], 0, 1⟩ = Except.error PyErr.typeError :=
  transmit_typeError ⟨7, [8, 9], [], 0, 1⟩

/-- C3: for every pair of draws, `_binary_string` returns a string of
exactly two characters, each `'0'` or `'1'`, and the Info built by
`RandomBinaryStringSource.create_information` carries exactly that string
as its contents. -/
theorem binary_string_two_bits (selfUuid d1 d2 : Nat) :
    (binaryString d1 d2).length = 2 ∧
    (∀ c ∈ (binaryString d1 d2).toList, c = '0' ∨ c = '1') ∧
    (rbssCreateInformationBody selfUuid d1 d2).contents = binaryString d1 d2 := by
  refine ⟨rfl, ?_, rfl⟩
  intro c hc
  have hc2 : c = bitChar d1 ∨ c = bitChar d2 := by
    simpa [binaryString, String.toList] using hc
  rcases hc2 with h | h
  · rw [h]; exact bitChar_cases d1
  · rw [h]; exact bitChar_cases d2

/-- Witness for C3 at concrete draws. -/
theorem binary_string_two_bits_witness :
    (binaryString 0 1).length = 2 ∧
    (∀ c ∈ (binaryString 0 1).toList, c = '0' ∨ c = '1') ∧
    (rbssCreateInformationBody 5 0 1).contents = binaryString 0 1 :=
  binary_string_two_bits 5 0 1

/-- C7 counterexample: the binary-string sampling step of
`RandomBinaryStringSource` declares no parameter besides `self`, and its
body resolves the module-global `random` — the sampling step does not
take an injectable source of randomness. -/
theorem binary_string_no_randomness_param :
    ¬ hasInjectableRandomnessParam binaryStringParams ∧
    "random" ∈ binaryStringGlobalRefs := by
  decide

/-- C7 (amended): `_binary_string` takes no randomness parameter and
consults the module-global `random` generator; reproducibility therefore
attaches to the global generator's state, not to a passed-in source — the
drawn string is a function of the two global draws alone. -/
theorem binary_string_global_randomness :
    binaryStringParams = ["self"] ∧ "random" ∈ binaryStringGlobalRefs ∧
    ∀ d1 d2 e1 e2 : Nat, d1 % 2 = e1 % 2 → d2 % 2 = e2 % 2 →
      binaryString d1 d2 = binaryString e1 e2 := by
  refine ⟨rfl, by decide, ?_⟩
  intro d1 d2 e1 e2 h1 h2
  unfold binaryString bitChar randint01
  rw [h1, h2]

/-- Witness for the amended C7 at concrete draws. -/
theorem binary_string_global_randomness_witness :
    binaryStringParams = ["self"] ∧ "random" ∈ binaryStringGlobalRefs ∧
    (2 % 2 = 0 % 2 ∧ 7 % 2 = 1 % 2 ∧ binaryString 2 7 = binaryString 0 1) := by
  obtain ⟨h1, h2, h3⟩ := binary_string_global_randomness
  exact ⟨h1, h2, rfl, rfl, h3 2 7 0 1 rfl rfl⟩

/-- C8: the base-class default operations raise `NotImplementedError` on
every invocation — `create_information` on the generic `Source`, and
`open_recruitment`, `recruit_participants` and `close_recruitment` on the
base `Recruiter`. -/
theorem base_defaults_not_implemented :
    sourceCreateInformationBody = Except.error PyErr.notImplementedError ∧
    recruiterOpenRecruitment = Except.error PyErr.notImplementedError ∧
    (∀ n : Nat, recruiterRecruitParticipants n = Except.error PyErr.notImplementedError) ∧
    recruiterCloseRecruitment = Except.error PyErr.notImplementedError :=
  ⟨rfl, rfl, fun _ => rfl, rfl⟩

/-- C9: importing `wallace.sources` executes the body of `class Source`;
its `def create_information(self, what=what, who=who)` evaluates the
default expression `what` in a scope (class-body locals, module globals,
builtins) that binds neither `what` nor `who`, so the import fails with a
`NameError`. -/
theorem import_sources_nameError :
    resolveName createInformationDefScope ("what") = Except.error PyErr.nameError ∧
    importWallaceSources = Except.error PyErr.nameError :=
  ⟨rfl, rfl⟩

/-- C10: `SimulatedRecruiter.open_recruitment` calls
`recruit_participants(exp, n=1)`; the positional `exp` fills the slot `n`
of `recruit_participants(self, n=1, exp=None)` and the keyword `n=1` then
names the same, already filled, slot — so every invocation fails with a
`TypeError` and triggers no arrival event. -/
theorem open_recruitment_typeError (expTag : String) :
    bindCall simulatedRecruitParticipantsParams 2 [.obj ("self"), .obj expTag] [("n", .int 1)]
        = Except.error PyErr.typeError ∧
    simulatedOpenRecruitment expTag = Except.error PyErr.typeError :=
  ⟨rfl, rfl⟩

/-- Witness for C10 at a concrete experiment object. -/
theorem open_recruitment_typeError_witness :
    bindCall simulatedRecruitParticipantsParams 2 [.obj ("self"), .obj ("exp")] [("n", .int 1)]
        = Except.error PyErr.typeError ∧
    simulatedOpenRecruitment ("exp") = Except.error PyErr.typeError :=
  open_recruitment_typeError ("exp")

/-! ### Helper lemmas for the process runs -/

theorem mem_of_getLast?_eq_some {α : Type} {l : List α} {q : α}
    (h : l.getLast? = some q) : q ∈ l := by
  obtain ⟨hne, rfl⟩ := List.mem_getLast?_eq_getLast (Option.mem_def.mpr h)
  exact List.getLast_mem hne

theorem pickD_eq_or_mem {α : Type} : ∀ (l : List α) (n : Nat) (d : α),
    pickD l n d = d ∨ pickD l n d ∈ l
  | [], _, _ => Or.inl rfl
  | x :: _, 0, _ => Or.inr (List.mem_cons_self _ _)
  | _ :: xs, n + 1, d => by
      rcases pickD_eq_or_mem xs n d with h | h
      · exact Or.inl h
      · exact Or.inr (List.mem_cons_of_mem _ h)

theorem pickD_mem {α : Type} {l : List α} {d : α} (hd : d ∈ l) (n : Nat) :
    pickD l n d ∈ l := by
  rcases pickD_eq_or_mem l n d with h | h
  · rw [h]; exact hd
  · exact h

theorem locked_contents_of_agentContents {s : String} {net : Net}
    (h : ContentsLocked s net) {u : Nat} {c : String}
    (hc : agentContents net u = some c) : c = s := by
  unfold agentContents at hc
  cases hfind : net.agents.find? (fun a => a.uuid == u) with
  | none =>
      rw [hfind] at hc
      exact Option.noConfusion (show (Option.none : Option String) = some c from hc)
  | some a =>
      rw [hfind] at hc
      have hc2 : a.contents = some c := hc
      have ha := h.1 a (List.mem_of_find?_eq_some hfind)
      rw [ha] at hc2
      exact (Option.some_inj.mp hc2).symm

theorem receiveAll_locked {s : String} {net : Net} (h : ContentsLocked s net) (u : Nat) :
    ContentsLocked s (receiveAll u net) := by
  unfold receiveAll
  split
  next q hlast =>
    have hq : q.2 = s := h.2 q (List.mem_of_mem_filter (mem_of_getLast?_eq_some hlast))
    constructor
    · intro a ha
      obtain ⟨b, hb, rfl⟩ := List.mem_map.mp ha
      have hbc := h.1 b hb
      split
      · exact congrArg some hq
      · exact hbc
    · intro p hp
      exact h.2 p (List.mem_of_mem_filter hp)
  next => exact h

theorem fcShape_map {l : List Agent} (h : FcShape l) (f : Agent → Agent)
    (hf : ∀ x, (f x).uuid = x.uuid) : FcShape (l.map f) := by
  obtain ⟨a, b, c, rfl, ha, hb, hc⟩ := h
  exact ⟨f a, f b, f c, rfl, by rw [hf a, ha], by rw [hf b, hb], by rw [hf c, hc]⟩

theorem receiveAll_shape {net : Net} (h : FcShape net.agents) (u : Nat) :
    FcShape (receiveAll u net).agents := by
  unfold receiveAll
  split
  next q hlast => exact fcShape_map h _ (fun x => by split <;> rfl)
  next => exact h

theorem foldl_receiveAll_pres (P : Net → Prop)
    (hP : ∀ u net, P net → P (receiveAll u net)) :
    ∀ (l : List Agent) (net : Net), P net → P (l.foldl (fun n a => receiveAll a.uuid n) net)
  | [], _, h => h
  | a :: l, net, h => foldl_receiveAll_pres P hP l _ (hP a.uuid net h)

theorem receiveAllAgents_pres (P : Net → Prop)
    (hP : ∀ u net, P net → P (receiveAll u net)) {net : Net} (h : P net) :
    P (receiveAllAgents net) :=
  foldl_receiveAll_pres P hP (aliveAgents net) net h

theorem culturalStep_agents (r1 r2 : Nat) (net : Net) :
    (moranCulturalStep r1 r2 net).agents = net.agents := by
  unfold moranCulturalStep
  split
  · rfl
  · dsimp only
    split
    · rfl
    · split <;> rfl

theorem culturalStep_locked {s : String} {net : Net} (h : ContentsLocked s net)
    (r1 r2 : Nat) : ContentsLocked s (moranCulturalStep r1 r2 net) := by
  unfold moranCulturalStep
  split
  · exact h
  · dsimp only
    split
    · exact h
    · split
      next c hc =>
        refine ⟨h.1, ?_⟩
        intro p hp
        rcases List.mem_append.mp hp with hp | hp
        · exact h.2 p hp
        · rw [List.mem_singleton.mp hp]
          exact locked_contents_of_agentContents h hc
      next => exact h

theorem fc_contents {s : String} {net : Net} (hl : ContentsLocked s net)
    (hs : FcShape net.agents) :
    agentContents net 1 = some s ∧ agentContents net 2 = some s ∧
      agentContents net 3 = some s := by
  obtain ⟨a, b, c, habc, ha, hb, hc⟩ := hs
  have hamem : a ∈ net.agents := by rw [habc]; exact List.mem_cons_self _ _
  have hbmem : b ∈ net.agents := by rw [habc]; simp
  have hcmem : c ∈ net.agents := by rw [habc]; simp
  refine ⟨?_, ?_, ?_⟩
  · unfold agentContents
    rw [habc, List.find?_cons_of_pos _ (by simp [ha])]
    exact hl.1 a hamem
  · unfold agentContents
    rw [habc, List.find?_cons_of_neg _ (by simp [ha]),
        List.find?_cons_of_pos _ (by simp [hb])]
    exact hl.1 b hbmem
  · unfold agentContents
    rw [habc, List.find?_cons_of_neg _ (by simp [ha]),
        List.find?_cons_of_neg _ (by simp [hb]),
        List.find?_cons_of_pos _ (by simp [hc])]
    exact hl.1 c hcmem

theorem seedGlobal_fc (s : String) :
    seedGlobal s fcNet =
      { agents := [⟨1, "alive", some s⟩, ⟨2, "alive", some s⟩, ⟨3, "alive", some s⟩],
        vectors := [(1, 2), (1, 3), (2, 1), (2, 3), (3, 1), (3, 2)],
        pending := [] } := rfl

theorem seed_locked (s : String) : ContentsLocked s (seedGlobal s fcNet) := by
  rw [seedGlobal_fc]
  constructor
  · intro a ha
    simp only [List.mem_cons, List.not_mem_nil, or_false] at ha
    rcases ha with rfl | rfl | rfl <;> rfl
  · intro p hp
    exact absurd hp (List.not_mem_nil p)

theorem seed_shape (s : String) : FcShape (seedGlobal s fcNet).agents := by
  rw [seedGlobal_fc]
  exact ⟨_, _, _, rfl, rfl, rfl, rfl⟩

theorem culturalRun_locked {s : String} {net : Net} (h : ContentsLocked s net)
    (r : Nat → Nat) : ∀ k, ContentsLocked s (moranCulturalRun r net k)
  | 0 => h
  | k + 1 =>
      receiveAllAgents_pres (ContentsLocked s) (fun u n hn => receiveAll_locked hn u)
        (culturalStep_locked (culturalRun_locked h r k) _ _)

theorem culturalRun_shape {net : Net} (h : FcShape net.agents) (r : Nat → Nat) :
    ∀ k, FcShape (moranCulturalRun r net k).agents
  | 0 => h
  | k + 1 =>
      receiveAllAgents_pres (fun n => FcShape n.agents)
        (fun u n hn => receiveAll_shape hn u)
        (by show FcShape (moranCulturalStep (r (2 * k)) (r (2 * k + 1))
              (moranCulturalRun r net k)).agents
            rw [culturalStep_agents]
            exact culturalRun_shape h r k)

theorem mem_filter_pickD {l : List Agent} {pred : Agent → Bool} {p : Agent}
    {ps : List Agent} (hpool : l.filter pred = p :: ps) (n : Nat) :
    pickD (p :: ps) n p ∈ l := by
  have hmem : pickD (p :: ps) n p ∈ p :: ps := pickD_mem (List.mem_cons_self _ _) n
  have hmf : pickD (p :: ps) n p ∈ l.filter pred := by rw [hpool]; exact hmem
  exact List.mem_of_mem_filter hmf

theorem sexualStep_locked {s : String} {net : Net} (h : ContentsLocked s net)
    (r1 r2 r3 fresh : Nat) :
    ContentsLocked s (moranSexualStep r1 r2 r3 (net, fresh)).1 := by
  unfold moranSexualStep
  split
  · exact h
  · dsimp only
    split
    · exact h
    next p ps hpool =>
      constructor
      · intro x hx
        rcases List.mem_append.mp hx with hx | hx
        · obtain ⟨b, hb, rfl⟩ := List.mem_map.mp hx
          have hbc := h.1 b hb
          split
          · exact hbc
          · exact hbc
        · rw [List.mem_singleton.mp hx]
          have hmem2 : pickD (p :: ps) (r2 % (p :: ps).length) p ∈ aliveAgents net :=
            mem_filter_pickD hpool _
          have hmem3 : pickD (p :: ps) (r2 % (p :: ps).length) p ∈ net.agents :=
            List.mem_of_mem_filter hmem2
          exact h.1 (pickD (p :: ps) (r2 % (p :: ps).length) p) hmem3
      · intro q hq
        exact h.2 q hq

theorem sexualRun_locked {s : String} (r : Nat → Nat) :
    ∀ (k : Nat) (st : Net × Nat), ContentsLocked s st.1 →
      ContentsLocked s (moranSexualRun r st k).1
  | 0, _, h => h
  | k + 1, st, h => by
      show ContentsLocked s
        (receiveAllAgents (moranSexualStep (r (3 * k)) (r (3 * k + 1)) (r (3 * k + 2))
          (moranSexualRun r st k)).1)
      apply receiveAllAgents_pres (ContentsLocked s) (fun u n hn => receiveAll_locked hn u)
      exact sexualStep_locked (sexualRun_locked r k st h) _ _ _ _

/-! ### The process claims -/

/-- C4: for every randomness stream, on the chain A1 → A2 → A3 seeded by a
local source at A1, the three `step()`/`receive_all()` cycles of the
random-walk test all succeed and the content held by A3 at the end equals
— as a string, not merely a similar value — the content A1 held after the
first cycle, namely the 2-character binary string drawn at the source. -/
theorem random_walk_fidelity (r : Nat → Nat) :
    ∃ w1 w2 w3 : Walk,
      walkCycle r 1 walk0 = Except.ok w1 ∧
      walkCycle r 2 w1 = Except.ok w2 ∧
      walkCycle r 3 w2 = Except.ok w3 ∧
      agentContents w3.net 3 = agentContents w1.net 1 ∧
      agentContents w1.net 1 = some (binaryString (r 0) (r 1)) := by
  refine ⟨⟨⟨[⟨1, "alive", some (binaryString (r 0) (r 1))⟩, ⟨2, "alive", none⟩,
             ⟨3, "alive", none⟩], [(1, 2), (2, 3)], []⟩, 1, some 1, 2⟩,
          ⟨⟨[⟨1, "alive", some (binaryString (r 0) (r 1))⟩,
             ⟨2, "alive", some (binaryString (r 0) (r 1))⟩,
             ⟨3, "alive", none⟩], [(1, 2), (2, 3)], []⟩, 1, some 2, 3⟩,
          ⟨⟨[⟨1, "alive", some (binaryString (r 0) (r 1))⟩,
             ⟨2, "alive", some (binaryString (r 0) (r 1))⟩,
             ⟨3, "alive", some (binaryString (r 0) (r 1))⟩], [(1, 2), (2, 3)], []⟩, 1, some 3, 4⟩,
          rfl, ?_, ?_, rfl, rfl⟩
  · simp [walkCycle, walkStep, pickD, receiveAll, agentContents, Nat.mod_one]
    rfl
  · simp [walkCycle, walkStep, pickD, receiveAll, agentContents, Nat.mod_one]
    rfl

/-- Witness for C4 at a concrete randomness stream. -/
theorem random_walk_fidelity_witness :
    ∃ w1 w2 w3 : Walk,
      walkCycle (fun _ => 0) 1 walk0 = Except.ok w1 ∧
      walkCycle (fun _ => 0) 2 w1 = Except.ok w2 ∧
      walkCycle (fun _ => 0) 3 w2 = Except.ok w3 ∧
      agentContents w3.net 3 = agentContents w1.net 1 ∧
      agentContents w1.net 1 = some (binaryString 0 0) :=
  random_walk_fidelity (fun _ => 0)

/-- C5: for every randomness stream and every pair of source draws, after
the global source's broadcast seeding and 100 iterations of
`MoranProcessCultural.step()` each followed by `receive_all()` on every
alive Agent, the three Agents' current contents are pairwise equal and the
shared value is one of the three originally-seeded values (the single
broadcast Info gives all three Agents the same seed, so fixation holds for
every stream and the final value is that seed). -/
theorem moran_cultural_fixation (r : Nat → Nat) (d1 d2 : Nat) :
    agentContents (moranCulturalRun r (seedGlobal (binaryString d1 d2) fcNet) 100) 1
      = agentContents (moranCulturalRun r (seedGlobal (binaryString d1 d2) fcNet) 100) 2 ∧
    agentContents (moranCulturalRun r (seedGlobal (binaryString d1 d2) fcNet) 100) 2
      = agentContents (moranCulturalRun r (seedGlobal (binaryString d1 d2) fcNet) 100) 3 ∧
    agentContents (moranCulturalRun r (seedGlobal (binaryString d1 d2) fcNet) 100) 3
      = agentContents (moranCulturalRun r (seedGlobal (binaryString d1 d2) fcNet) 100) 1 ∧
    agentContents (moranCulturalRun r (seedGlobal (binaryString d1 d2) fcNet) 100) 1
      ∈ [agentContents (seedGlobal (binaryString d1 d2) fcNet) 1,
         agentContents (seedGlobal (binaryString d1 d2) fcNet) 2,
         agentContents (seedGlobal (binaryString d1 d2) fcNet) 3] := by
  have h0 := seed_locked (binaryString d1 d2)
  have hs0 := seed_shape (binaryString d1 d2)
  obtain ⟨h1, h2, h3⟩ :=
    fc_contents (culturalRun_locked h0 r 100) (culturalRun_shape hs0 r 100)
  obtain ⟨g1, g2, g3⟩ := fc_contents h0 hs0
  rw [h1, h2, h3, g1]
  exact ⟨rfl, rfl, rfl, List.mem_cons_self _ _⟩

/-- Witness for C5 at a concrete randomness stream and source draws. -/
theorem moran_cultural_fixation_witness :
    agentContents (moranCulturalRun (fun _ => 0) (seedGlobal (binaryString 0 1) fcNet) 100) 1
      = agentContents (moranCulturalRun (fun _ => 0) (seedGlobal (binaryString 0 1) fcNet) 100) 2 ∧
    agentContents (moranCulturalRun (fun _ => 0) (seedGlobal (binaryString 0 1) fcNet) 100) 2
      = agentContents (moranCulturalRun (fun _ => 0) (seedGlobal (binaryString 0 1) fcNet) 100) 3 ∧
    agentContents (moranCulturalRun (fun _ => 0) (seedGlobal (binaryString 0 1) fcNet) 100) 3
      = agentContents (moranCulturalRun (fun _ => 0) (seedGlobal (binaryString 0 1) fcNet) 100) 1 ∧
    agentContents (moranCulturalRun (fun _ => 0) (seedGlobal (binaryString 0 1) fcNet) 100) 1
      ∈ [agentContents (seedGlobal (binaryString 0 1) fcNet) 1,
         agentContents (seedGlobal (binaryString 0 1) fcNet) 2,
         agentContents (seedGlobal (binaryString 0 1) fcNet) 3] :=
  moran_cultural_fixation (fun _ => 0) 0 1

set_option maxRecDepth 100000 in
set_option maxHeartbeats 1600000 in
/-- C6 counterexample: Agent 2, originally alive in the fully-connected
Network, still has status `"alive"` after 100 iterations of the sexual
Moran run under the randomness stream that always draws 2 (each step then
replaces the most recently added Agent, sparing the originals 1 and 2) —
so it is not the case that every originally-alive Agent is dead after 100
iterations. -/
theorem moran_sexual_counterexample :
    agentStatus (seedGlobal (binaryString 0 1) fcNet) 2 = "alive" ∧
    agentStatus (moranSexualRun (fun _ => 2) (seedGlobal (binaryString 0 1) fcNet, 4) 100).1 2
      = "alive" := by
  constructor
  · decide
  · decide

set_option maxRecDepth 100000 in
set_option maxHeartbeats 1600000 in
/-- C6 (amended): for every randomness stream, after 100 iterations of
`MoranProcessSexual.step()` each followed by `receive_all()`, every
currently-alive Agent's contents is one of the originally-seeded values
(the broadcast seed); and mortality of all three originals is attainable —
under the stream that always draws 0, Agents 1, 2 and 3 all have status
`"dead"` after 100 iterations — but, by the counterexample, not
guaranteed for every stream. -/
theorem moran_sexual_lineage (r : Nat → Nat) (d1 d2 : Nat) :
    (∀ a ∈ (moranSexualRun r (seedGlobal (binaryString d1 d2) fcNet, 4) 100).1.agents,
        a.status = "alive" → a.contents = some (binaryString d1 d2)) ∧
    [agentStatus (moranSexualRun (fun _ => 0) (seedGlobal (binaryString 0 1) fcNet, 4) 100).1 1,
     agentStatus (moranSexualRun (fun _ => 0) (seedGlobal (binaryString 0 1) fcNet, 4) 100).1 2,
     agentStatus (moranSexualRun (fun _ => 0) (seedGlobal (binaryString 0 1) fcNet, 4) 100).1 3]
      = ["dead", "dead", "dead"] := by
  constructor
  · intro a ha _
    exact (sexualRun_locked r 100 (seedGlobal (binaryString d1 d2) fcNet, 4)
      (seed_locked (binaryString d1 d2))).1 a ha
  · decide

set_option maxRecDepth 100000 in
set_option maxHeartbeats 1600000 in
/-- Witness for the amended C6 at a concrete randomness stream and draws. -/
theorem moran_sexual_lineage_witness :
    (∀ a ∈ (moranSexualRun (fun _ => 0) (seedGlobal (binaryString 0 1) fcNet, 4) 100).1.agents,
        a.status = "alive" → a.contents = some (binaryString 0 1)) ∧
    [agentStatus (moranSexualRun (fun _ => 0) (seedGlobal (binaryString 0 1) fcNet, 4) 100).1 1,
     agentStatus (moranSexualRun (fun _ => 0) (seedGlobal (binaryString 0 1) fcNet, 4) 100).1 2,
     agentStatus (moranSexualRun (fun _ => 0) (seedGlobal (binaryString 0 1) fcNet, 4) 100).1 3]
      = ["dead", "dead", "dead"] :=
  moran_sexual_lineage (fun _ => 0) 0 1

end Wallace
